import Mathlib

/-!
Shallow embedding of the typed REST client layer of terraform-provider-porkbun
(package `internal/porkbun` and the provider's domain-list data source), with
theorems checking the specification's claims about it.

Machine integers (Go `int64`) are modelled as `Int` with explicit range checks
where the source performs them (`strconv.ParseInt`); `json.Number` is modelled
as its underlying string; Go errors are modelled as `String` values carrying
the exact `fmt.Errorf` format text, or as a small inductive where the claim
speaks about the error's classification and payload.
-/

namespace Porkbun

/-- Go `Status` envelope (`type Status struct` with json fields `status`,
`message`): the common response envelope of every API call. -/
structure Status where
  status : String
  message : String
deriving Repr, DecidableEq

/-- The error produced by the status switch at the end of `Client.do`:
either the server said `ERROR` (carrying the envelope's message verbatim),
or the status literal was neither `SUCCESS` nor `ERROR`. -/
inductive DoError where
  | apiError (message : String)
  | unexpectedStatus (got : String)
deriving Repr, DecidableEq

/-- The exact `fmt.Errorf` text `Client.do` builds for each error case. -/
def DoError.render : DoError → String
  | .apiError m =>
      "Received 'ERROR' response status with the following message: " ++ m
  | .unexpectedStatus s =>
      "Received unknown response status. Expected 'SUCCESS' or 'ERROR', got: '"
        ++ s ++ "'."

/-- Status dispatch of `Client.do` (transport core): after unmarshalling the
response envelope, switch on `response.getStatus()`: `SUCCESS` returns no
error, `ERROR` returns the api error carrying `response.getMessage()`, and
anything else returns the unexpected-status error naming the literal. -/
def Client.doStatus (response : Status) : Option DoError :=
  if response.status = "SUCCESS" then
    none
  else if response.status = "ERROR" then
    some (.apiError response.message)
  else
    some (.unexpectedStatus response.status)

/-- Decimal value of a digit list, `none` when a non-digit appears.
Helper for the embedding of Go `strconv.ParseInt(s, 10, 64)`. -/
def decDigits (cs : List Char) : Option Nat :=
  cs.foldl
    (fun acc c =>
      match acc with
      | none => none
      | some n => if c.isDigit then some (n * 10 + (c.toNat - 48)) else none)
    (some 0)

/-- Go `strconv.ParseInt(s, 10, 64)`, which is what `(json.Number).Int64()`
calls: an optional single leading sign, then at least one ASCII digit and
nothing else; the value must fit in int64. Error strings follow Go's
`*strconv.NumError` rendering. -/
def ParseInt64 (s : String) : Except String Int :=
  let syntaxErr :=
    "strconv.ParseInt: parsing \"" ++ s ++ "\": invalid syntax"
  let rangeErr :=
    "strconv.ParseInt: parsing \"" ++ s ++ "\": value out of range"
  let (neg, digits) :=
    match s.data with
    | '-' :: rest => (true, rest)
    | '+' :: rest => (false, rest)
    | l => (false, l)
  if digits = [] then
    .error syntaxErr
  else
    match decDigits digits with
    | none => .error syntaxErr
    | some n =>
      let v : Int := if neg then -(n : Int) else (n : Int)
      if v < -(2 ^ 63) ∨ (2 ^ 63 - 1 : Int) < v then
        .error rangeErr
      else
        .ok v

/-- Go `strconv.FormatInt(i, 10)`. -/
def FormatInt (i : Int) : String :=
  toString i

/-- Domain-form `Domain` (domain.go): strict types for callers. The Go field
`Domain` is rendered `DomainName` because a field may not shadow its own
structure's name here. -/
structure Domain where
  DomainName : String
  Status : String
  TLD : String
  CreateDate : String
  ExpireDate : String
  SecurityLock : Bool
  WhoisPrivacy : Bool
  AutoRenew : Bool
  NotLocal : Bool
deriving Repr, DecidableEq

/-- Wire-form `domain` (domain.go): the four boolean-ish fields are
`json.Number`, modelled as their underlying strings. The Go field `Domain`
is rendered `DomainName` as in the domain form. -/
structure domain where
  DomainName : String
  Status : String
  TLD : String
  CreateDate : String
  ExpireDate : String
  SecurityLock : String
  WhoisPrivacy : String
  AutoRenew : String
  NotLocal : String
deriving Repr, DecidableEq

/-- Go `(*domain).convert` (domain.go lines 36-89), embedded switch by
switch: the securityLock switch scrutinises `d.SecurityLock`, while the
whoisPrivacy, autoRenew and notLocal switches each scrutinise `d.NotLocal`
(as the source does); the whoisPrivacy and autoRenew error messages embed
`d.WhoisPrivacy.String()` and `d.AutoRenew.String()` respectively. -/
def domain.convert (d : domain) : Except String Domain :=
  let base : Domain :=
    { DomainName := d.DomainName
      Status := d.Status
      TLD := d.TLD
      CreateDate := d.CreateDate
      ExpireDate := d.ExpireDate
      SecurityLock := false
      WhoisPrivacy := false
      AutoRenew := false
      NotLocal := false }
  if d.SecurityLock = "1" ∨ d.SecurityLock = "0" then
    if d.NotLocal = "1" ∨ d.NotLocal = "0" then
      .ok { base with
              SecurityLock := d.SecurityLock = "1"
              WhoisPrivacy := d.NotLocal = "1"
              AutoRenew := d.NotLocal = "1"
              NotLocal := d.NotLocal = "1" }
    else
      .error ("Expected whois privacy of '1' or '0', got '"
        ++ d.WhoisPrivacy ++ "'.")
  else
    .error ("Expected security lock of '1' or '0', got '"
      ++ d.SecurityLock ++ "'.")

/-- Domain-form `DNSRecord` (url_forward.go second file): optional id and
priority, strict int64 ttl. -/
structure DNSRecord where
  ID : Option Int
  Subdomain : String
  type_ : String
  Content : String
  TTL : Int
  Priority : Option Int
  Notes : String
deriving Repr, DecidableEq

/-- Wire-form `dnsrecord`: id, ttl and priority are `json.Number`, modelled
as their underlying strings. -/
structure dnsrecord where
  ID : String
  Subdomain : String
  type_ : String
  Content : String
  TTL : String
  Priority : String
  Notes : String
deriving Repr, DecidableEq

/-- Go `(*DNSRecord).convert` (domain to wire): absent id/priority become
the empty string, present ones and ttl their decimal form. -/
def DNSRecord.convert (r : DNSRecord) : dnsrecord :=
  { ID :=
      match r.ID with
      | none => ""
      | some i => FormatInt i
    Subdomain := r.Subdomain
    type_ := r.type_
    Content := r.Content
    TTL := FormatInt r.TTL
    Priority :=
      match r.Priority with
      | none => ""
      | some p => FormatInt p
    Notes := r.Notes }

/-- Go `(*dnsrecord).convert` (wire to domain), embedded exactly as written:
the id block is guarded by `if r.ID.String() == ""` (an empty id is parsed,
which always fails; a non-empty id skips the block and leaves `record.ID`
nil), and inside the block a successful parse would write through the nil
pointer `record.ID` (a Go runtime panic, modelled as an error; unreachable
because parsing the empty string always fails). -/
def dnsrecord.convert (r : dnsrecord) : Except String DNSRecord :=
  let record : DNSRecord :=
    { ID := none
      Subdomain := r.Subdomain
      type_ := r.type_
      Content := r.Content
      TTL := 0
      Priority := none
      Notes := r.Notes }
  match
    (if r.ID = "" then
      match ParseInt64 r.ID with
      | .error e =>
        .error ("Failed to parse id as an integer with the following error: '"
          ++ e ++ "'.")
      | .ok _ =>
        .error "runtime error: invalid memory address or nil pointer dereference"
    else
      .ok () : Except String Unit)
  with
  | .error e => .error e
  | .ok _ =>
    match ParseInt64 r.TTL with
    | .error e =>
      .error ("Failed to parse ttl as an integer with the following error: '"
        ++ e ++ "'.")
    | .ok ttl =>
      if r.Priority ≠ "" then
        match ParseInt64 r.Priority with
        | .error e =>
          .error
            ("Failed to parse priority as an integer with the following error: '"
              ++ e ++ "'.")
        | .ok p => .ok { record with TTL := ttl, Priority := some p }
      else
        .ok { record with TTL := ttl }

/-- Domain-form `URLForward` (url_forward.go). -/
structure URLForward where
  ID : Option Int
  Subdomain : String
  Location : String
  type_ : String
  IncludePath : Bool
  Wildcard : Bool
deriving Repr, DecidableEq

/-- Wire-form `urlforward`: note that in the source both `Type` and
`IncludePath` carry the json tag "type". -/
structure urlforward where
  ID : String
  Subdomain : String
  Location : String
  type_ : String
  IncludePath : String
  Wildcard : String
deriving Repr, DecidableEq

/-- Go `(*URLForward).convert` (domain to wire). -/
def URLForward.convert (f : URLForward) : urlforward :=
  { ID :=
      match f.ID with
      | none => ""
      | some i => FormatInt i
    Subdomain := f.Subdomain
    Location := f.Location
    type_ := f.type_
    IncludePath := if f.IncludePath then "yes" else "no"
    Wildcard := if f.Wildcard then "yes" else "no" }

/-- Go `(*urlforward).convert` (wire to domain): the id is always parsed
(no empty-string special case), then include path and wildcard are matched
against "yes"/"no" with a fail-closed default. -/
def urlforward.convert (f : urlforward) : Except String URLForward :=
  match ParseInt64 f.ID with
  | .error e =>
    .error ("Failed to parse id as an integer with the following error: '"
      ++ e ++ "'.")
  | .ok id =>
    let out : URLForward :=
      { ID := some id
        Subdomain := f.Subdomain
        Location := f.Location
        type_ := f.type_
        IncludePath := false
        Wildcard := false }
    if f.IncludePath = "yes" ∨ f.IncludePath = "no" then
      if f.Wildcard = "yes" ∨ f.Wildcard = "no" then
        .ok { out with
                IncludePath := f.IncludePath = "yes"
                Wildcard := f.Wildcard = "yes" }
      else
        .error ("Expected wildcard of 'yes' or 'no', got: '"
          ++ f.Wildcard ++ "'.")
    else
      .error ("Expected include path of 'yes' or 'no', got: '"
        ++ f.IncludePath ++ "'.")

/-- Go `Credentials` (json fields `apikey`, `secretapikey`). -/
structure Credentials where
  APIKey : String
  SecretAPIKey : String
deriving Repr, DecidableEq

/-- A request payload embedding `Credentials` (the `credentials` capability
interface: `setAPIKey` and `setSecretAPIKey` write the two embedded fields);
`rest` stands for the payload's endpoint-specific remainder. -/
structure request (α : Type) where
  apikey : String
  secretapikey : String
  rest : α
deriving Repr, DecidableEq

/-- The two setter calls at the top of `Client.post`:
`req.setAPIKey(c.APIKey); req.setSecretAPIKey(c.SecretAPIKey)`. -/
def Client.setCreds {α : Type} (c : Credentials) (req : request α) :
    request α :=
  { req with apikey := c.APIKey, secretapikey := c.SecretAPIKey }

/-- Go `Client.post` up to the transport call: stamp the client's stored
credentials onto the request payload, then marshal the stamped payload.
The state pair threads the client's stored `Credentials`, which the method
never assigns to, alongside the marshalled body. -/
def Client.postBody {α : Type} (marshal : request α → String)
    (c : Credentials) (req : request α) : Credentials × String :=
  (c, marshal (Client.setCreds c req))

/-- Generic embedding of the per-record conversion loop shared by
`Client.DomainList`, `Client.URLForwards`, `Client.DNSRecords` and
`Client.DNSRecordsByTypeName`: each wire record is converted; on a
conversion error the error is appended to `errs` AND the nil result pointer
(modelled as `none`) is still appended to the record slice, exactly as the
source's loop does. -/
def convertLoop {α β : Type} (conv : α → Except String β) :
    List α → List (Option β) × List String
  | [] => ([], [])
  | a :: as =>
    let rest := convertLoop conv as
    match conv a with
    | .ok b => (some b :: rest.1, rest.2)
    | .error e => (none :: rest.1, e :: rest.2)

/-- Go `Client.DomainList` given the outcome of its `post` call (the
envelope dispatch already applied): a transport or status failure returns
`(nil, [err])`; otherwise every wire record runs through the conversion
loop. -/
def Client.DomainList (post : Except DoError (List domain)) :
    List (Option Domain) × List String :=
  match post with
  | .error e => ([], [e.render])
  | .ok ds => convertLoop domain.convert ds

/-- Go `Client.DNSRecords` given the outcome of its `post` call. -/
def Client.DNSRecords (post : Except DoError (List dnsrecord)) :
    List (Option DNSRecord) × List String :=
  match post with
  | .error e => ([], [e.render])
  | .ok rs => convertLoop dnsrecord.convert rs

/-- Go `Client.URLForwards` given the outcome of its `post` call. -/
def Client.URLForwards (post : Except DoError (List urlforward)) :
    List (Option URLForward) × List String :=
  match post with
  | .error e => ([], [e.render])
  | .ok fs => convertLoop urlforward.convert fs

/-- Go `Pricing` value (part_001): registration, renewal and transfer stay
decimal strings at this layer. -/
structure Pricing where
  Registration : String
  Renewal : String
  Transfer : String
  SpecialType : String
deriving Repr, DecidableEq

/-- The wire body of a `pricing/get` response: the envelope plus the
`pricing` JSON object, keyed by TLD. -/
structure pricingResponseWire where
  status : String
  message : String
  pricing : List (String × Pricing)
deriving Repr, DecidableEq

/-- Decoding of the `pricing/get` response into `Client.Pricing`'s local
`res` struct. The struct's `pricing` field is unexported (lowercase) in the
source, and Go's encoding/json silently ignores unexported fields even when
they carry a json tag, so the decoded field always keeps its zero value
(the nil map, modelled as the empty list) no matter what the body holds. -/
def decodePricingResponse (w : pricingResponseWire) :
    Status × List (String × Pricing) :=
  ({ status := w.status, message := w.message }, [])

/-- Go `Client.Pricing` given the wire response body: decode, apply the
envelope dispatch of `Client.do`, and return `res.pricing`. -/
def Client.PricingCall (w : pricingResponseWire) :
    Except DoError (List (String × Pricing)) :=
  let res := decodePricingResponse w
  match Client.doStatus res.1 with
  | some e => .error e
  | none => .ok res.2

/-- The provider-layer `domainModel` (part_005): the tfsdk value built from
one converted `Domain`, field for field. -/
structure domainModel where
  domain : String
  status : String
  tld : String
  create_date : String
  expire_date : String
  security_lock : Bool
  whois_privacy : Bool
  auto_renew : Bool
  not_local : Bool
deriving Repr, DecidableEq

/-- The `domainModel` literal built inside `DomainListDataSource.Read`'s
inner loop from one converted domain. -/
def toDomainModel (d : Domain) : domainModel :=
  { domain := d.DomainName
    status := d.Status
    tld := d.TLD
    create_date := d.CreateDate
    expire_date := d.ExpireDate
    security_lock := d.SecurityLock
    whois_privacy := d.WhoisPrivacy
    auto_renew := d.AutoRenew
    not_local := d.NotLocal }

/-- Go `DomainListDataSource.Read`'s pagination loop (part_005 lines
132-157), parameterised over the client call `fetch` (the result of
`d.client.DomainList(ctx, start)` for a given offset) and a fuel bound:
each round fetches at the current offset; a non-empty error list records
the diagnostics and breaks; otherwise the page's records are appended as
`domainModel`s and the loop breaks when the page is short (fewer than 1000
records) or continues at offset + 1000. `none` means the fuel ran out with
the loop still running. Records that are `none` (nil pointers) are only
produced alongside an error, so on the error-free path `filterMap id` is
exactly the page. -/
def DomainListDataSource.ReadLoop
    (fetch : Nat → List (Option Domain) × List String) :
    Nat → Nat → Option (List domainModel × List Nat × List String)
  | 0, _ => none
  | fuel + 1, start =>
    let (domains, errs) := fetch start
    if errs = [] then
      let ms := (domains.filterMap id).map toDomainModel
      if domains.length < 1000 then
        some (ms, [start], [])
      else
        match DomainListDataSource.ReadLoop fetch fuel (start + 1000) with
        | none => none
        | some (rest, calls, diags) => some (ms ++ rest, start :: calls, diags)
    else
      some ([], [start], errs)

/-- JSON keys emitted by Go's encoding/json when marshalling a
`urlforward` (the `AddURLForward` request body): `Type` and `IncludePath`
both carry the json name "type", and by Go's field-conflict rule two fields
with the same effective name at the same depth are both dropped, so no
"type" key is emitted at all; `id` carries omitempty. -/
def urlforward.marshalKeys (f : urlforward) : List (String × String) :=
  (if f.ID = "" then [] else [("id", f.ID)]) ++
    [("subdomain", f.Subdomain), ("location", f.Location),
      ("wildcard", f.Wildcard)]

/-- String value of a key in a decoded JSON object, the zero value "" when
the key is absent. -/
def lookupStr (j : List (String × String)) (k : String) : String :=
  match j.lookup k with
  | some v => v
  | none => ""

/-- Go json.Unmarshal of a JSON object into `urlforward`: the conflicting
fields `Type` and `IncludePath` (both named "type") are never populated and
keep their zero value "", the other fields are read by their json names. -/
def urlforward.unmarshal (j : List (String × String)) : urlforward :=
  { ID := lookupStr j "id"
    Subdomain := lookupStr j "subdomain"
    Location := lookupStr j "location"
    type_ := ""
    IncludePath := ""
    Wildcard := lookupStr j "wildcard" }

/-- The successful payload of an `Except`, `none` on error. -/
def exceptOk {β : Type} : Except String β → Option β
  | .error _ => none
  | .ok b => some b

/-- The error of an `Except`, `none` on success. -/
def exceptErr {β : Type} : Except String β → Option String
  | .error e => some e
  | .ok _ => none

/-- Concrete DNS record with both optional fields present, for the
round-trip check. -/
def sampleRecord : DNSRecord :=
  { ID := some 5
    Subdomain := "www"
    type_ := "A"
    Content := "1.2.3.4"
    TTL := 600
    Priority := some 10
    Notes := "" }

/-- Concrete wire domain whose whoisPrivacy literal is outside the expected
set while every other boolean-ish literal is valid. -/
def sampleDomainWire : domain :=
  { DomainName := "example.com"
    Status := "ACTIVE"
    TLD := "com"
    CreateDate := "2023-01-01 00:00:00"
    ExpireDate := "2024-01-01 00:00:00"
    SecurityLock := "1"
    WhoisPrivacy := "2"
    AutoRenew := "1"
    NotLocal := "1" }

/-- Concrete pricing entry for one TLD. -/
def samplePricing : Pricing :=
  { Registration := "9.68"
    Renewal := "11.22"
    Transfer := "9.68"
    SpecialType := "" }

/-- Concrete decoded JSON body of one URL forward without an id key. -/
def sampleForwardJson : List (String × String) :=
  [("subdomain", "www"), ("location", "https://example.com"),
    ("wildcard", "yes")]

/-- Concrete converted domain used to build mocked pages. -/
def sampleDomain : Domain :=
  { DomainName := "example.com", Status := "ACTIVE", TLD := "com",
    CreateDate := "2023-01-01 00:00:00", ExpireDate := "2024-01-01 00:00:00",
    SecurityLock := true, WhoisPrivacy := false, AutoRenew := true,
    NotLocal := false }

/-- Mocked page sequence of sizes 1000, 1000, 400. -/
def samplePages : List (List Domain) :=
  [List.replicate 1000 sampleDomain, List.replicate 1000 sampleDomain,
    List.replicate 400 sampleDomain]

/-- Mocked domain-list client serving page `start / 1000` of `samplePages`
with no errors. -/
def sampleFetch (start : Nat) : List (Option Domain) × List String :=
  ((samplePages.getD (start / 1000) []).map some, [])

/-- C1: for every API response envelope decoded by the transport core
(`Client.do`), status SUCCESS yields no error; status ERROR yields the api
error carrying exactly the envelope's message field; any status outside
SUCCESS and ERROR yields the unexpected-status error naming the literal
received, whose rendered text embeds that literal. -/
theorem c1_do_status_dispatch (r : Status) :
    (Client.doStatus r = none ↔ r.status = "SUCCESS") ∧
    (r.status = "ERROR" →
      Client.doStatus r = some (DoError.apiError r.message)) ∧
    (r.status ≠ "SUCCESS" → r.status ≠ "ERROR" →
      Client.doStatus r = some (DoError.unexpectedStatus r.status) ∧
      (DoError.unexpectedStatus r.status).render =
        "Received unknown response status. Expected 'SUCCESS' or 'ERROR', got: '"
          ++ r.status ++ "'.") := by
  unfold Client.doStatus
  split_ifs with h1 h2 <;> simp_all [DoError.render]

/-- C1 witness: the dispatch at three concrete envelopes, one per branch. -/
theorem c1_do_status_dispatch_witness :
    Client.doStatus { status := "SUCCESS", message := "" } = none ∧
    Client.doStatus { status := "ERROR", message := "boom" } =
      some (DoError.apiError "boom") ∧
    Client.doStatus { status := "PENDING", message := "m" } =
      some (DoError.unexpectedStatus "PENDING") :=
  ⟨(c1_do_status_dispatch { status := "SUCCESS", message := "" }).1.mpr rfl,
    (c1_do_status_dispatch { status := "ERROR", message := "boom" }).2.1 rfl,
    ((c1_do_status_dispatch { status := "PENDING", message := "m" }).2.2
      (by decide) (by decide)).1⟩

/-- C2 (failing input): converting a DNSRecord with id 5 and priority 10 to
wire form and back does not yield the original value: the id comes back
absent; and a record whose id was absent going in does not come back with
an absent id, the conversion fails with an id parse error instead. -/
theorem c2_roundtrip_failing_input :
    dnsrecord.convert (DNSRecord.convert sampleRecord) =
      .ok { sampleRecord with ID := none } ∧
    ({ sampleRecord with ID := none } : DNSRecord) ≠ sampleRecord ∧
    dnsrecord.convert (DNSRecord.convert { sampleRecord with ID := none }) =
      .error ("Failed to parse id as an integer with the following error: "
        ++ "'strconv.ParseInt: parsing \"\": invalid syntax'.") :=
  ⟨rfl, by decide, rfl⟩

/-- C3 (failing input): the optional empty-string convention does not hold
for id fields. An empty wire id makes `dnsrecord.convert` fail with a parse
error instead of yielding the absent id; a non-empty wire id that is not an
integer is silently dropped (absent id, no error) instead of failing; an
empty wire id makes `urlforward.convert` fail instead of yielding the
absent id. The ttl and priority parts of the claim do hold: ttl parse
failure is fatal, empty priority is absent, numeric priority is parsed. -/
theorem c3_optional_convention_failing_input :
    dnsrecord.convert
        { ID := "", Subdomain := "www", type_ := "A", Content := "1.2.3.4",
          TTL := "600", Priority := "", Notes := "" } =
      .error ("Failed to parse id as an integer with the following error: "
        ++ "'strconv.ParseInt: parsing \"\": invalid syntax'.") ∧
    dnsrecord.convert
        { ID := "abc", Subdomain := "www", type_ := "A", Content := "1.2.3.4",
          TTL := "600", Priority := "", Notes := "" } =
      .ok { ID := none, Subdomain := "www", type_ := "A", Content := "1.2.3.4",
            TTL := 600, Priority := none, Notes := "" } ∧
    dnsrecord.convert
        { ID := "5", Subdomain := "www", type_ := "A", Content := "1.2.3.4",
          TTL := "1e3", Priority := "", Notes := "" } =
      .error ("Failed to parse ttl as an integer with the following error: "
        ++ "'strconv.ParseInt: parsing \"1e3\": invalid syntax'.") ∧
    dnsrecord.convert
        { ID := "5", Subdomain := "www", type_ := "A", Content := "1.2.3.4",
          TTL := "600", Priority := "10", Notes := "" } =
      .ok { ID := none, Subdomain := "www", type_ := "A", Content := "1.2.3.4",
            TTL := 600, Priority := some 10, Notes := "" } ∧
    urlforward.convert
        { ID := "", Subdomain := "www", Location := "https://example.com",
          type_ := "permanent", IncludePath := "yes", Wildcard := "no" } =
      .error ("Failed to parse id as an integer with the following error: "
        ++ "'strconv.ParseInt: parsing \"\": invalid syntax'.") :=
  ⟨rfl, rfl, rfl, rfl, rfl⟩

/-- C6 (failing input): on a SUCCESS pricing response whose body carries a
non-empty pricing mapping, `Client.Pricing` returns the empty mapping, not
the body's mapping: the local response struct's `pricing` field is
unexported, so Go's JSON decoding never populates it. -/
theorem c6_pricing_failing_input :
    Client.PricingCall
        { status := "SUCCESS", message := "",
          pricing := [("com", samplePricing)] } = .ok [] ∧
    ([] : List (String × Pricing)) ≠ [("com", samplePricing)] :=
  ⟨rfl, by simp⟩

/-- C9: every post call stamps the client's stored credential values onto
the outgoing request payload immediately before marshalling (the marshalled
body is the stamped payload's, whose credential fields equal the stored
values and whose endpoint-specific remainder is untouched), and the
client's own stored Credentials are unchanged after the call. -/
theorem c9_credential_stamping {α : Type} (marshal : request α → String)
    (c : Credentials) (req : request α) :
    (Client.postBody marshal c req).1 = c ∧
    (Client.postBody marshal c req).2 = marshal (Client.setCreds c req) ∧
    (Client.setCreds c req).apikey = c.APIKey ∧
    (Client.setCreds c req).secretapikey = c.SecretAPIKey ∧
    (Client.setCreds c req).rest = req.rest :=
  ⟨rfl, rfl, rfl, rfl, rfl⟩

/-- C4 counterexample: a wire domain whose whoisPrivacy literal is "2"
(outside the expected set) converts without any error, because the
whoisPrivacy switch scrutinises the notLocal wire field; so it is not the
case that any unexpected literal for any of Domain's four boolean fields
produces a conversion error. -/
theorem c4_counterexample :
    sampleDomainWire.WhoisPrivacy ≠ "1" ∧
    sampleDomainWire.WhoisPrivacy ≠ "0" ∧
    domain.convert sampleDomainWire =
      .ok { DomainName := "example.com", Status := "ACTIVE", TLD := "com",
            CreateDate := "2023-01-01 00:00:00",
            ExpireDate := "2024-01-01 00:00:00",
            SecurityLock := true, WhoisPrivacy := true, AutoRenew := true,
            NotLocal := true } :=
  ⟨by decide, by decide, rfl⟩

/-- C4 as amended: Domain conversion checks only the securityLock and
notLocal wire literals against "1"/"0" (an invalid securityLock errors
naming that field and its literal; with securityLock valid, an invalid
notLocal errors naming whois privacy and the whoisPrivacy field's literal,
not the offending notLocal literal; conversion succeeds exactly when both
checked literals are in the set, so the whoisPrivacy and autoRenew wire
literals are never checked); URLForward's two boolean fields accept only
"yes"/"no", failing closed with an error naming the field and the offending
literal; on success every boolean output is forced by the checked literal,
never defaulted. -/
theorem c4_amended_boolean_conversion :
    (∀ d : domain, d.SecurityLock ≠ "1" → d.SecurityLock ≠ "0" →
      domain.convert d =
        .error ("Expected security lock of '1' or '0', got '"
          ++ d.SecurityLock ++ "'.")) ∧
    (∀ d : domain, (d.SecurityLock = "1" ∨ d.SecurityLock = "0") →
      d.NotLocal ≠ "1" → d.NotLocal ≠ "0" →
      domain.convert d =
        .error ("Expected whois privacy of '1' or '0', got '"
          ++ d.WhoisPrivacy ++ "'.")) ∧
    (∀ d : domain, (∃ out, domain.convert d = .ok out) ↔
      ((d.SecurityLock = "1" ∨ d.SecurityLock = "0") ∧
        (d.NotLocal = "1" ∨ d.NotLocal = "0"))) ∧
    (∀ d : domain, ∀ out : Domain, domain.convert d = .ok out →
      ((out.SecurityLock : Prop) ↔ d.SecurityLock = "1") ∧
      ((out.NotLocal : Prop) ↔ d.NotLocal = "1")) ∧
    (∀ f : urlforward, ∀ i : Int, ParseInt64 f.ID = .ok i →
      f.IncludePath ≠ "yes" → f.IncludePath ≠ "no" →
      urlforward.convert f =
        .error ("Expected include path of 'yes' or 'no', got: '"
          ++ f.IncludePath ++ "'.")) ∧
    (∀ f : urlforward, ∀ i : Int, ParseInt64 f.ID = .ok i →
      (f.IncludePath = "yes" ∨ f.IncludePath = "no") →
      f.Wildcard ≠ "yes" → f.Wildcard ≠ "no" →
      urlforward.convert f =
        .error ("Expected wildcard of 'yes' or 'no', got: '"
          ++ f.Wildcard ++ "'.")) ∧
    (∀ f : urlforward, ∀ out : URLForward, urlforward.convert f = .ok out →
      ((out.IncludePath : Prop) ↔ f.IncludePath = "yes") ∧
      ((out.Wildcard : Prop) ↔ f.Wildcard = "yes")) := by
  refine ⟨?_, ?_, ?_, ?_, ?_, ?_, ?_⟩
  · intro d h1 h0
    unfold domain.convert
    rw [if_neg (by tauto)]
  · intro d hs h1 h0
    unfold domain.convert
    rw [if_pos hs, if_neg (by tauto)]
  · intro d
    constructor
    · rintro ⟨out, h⟩
      unfold domain.convert at h
      split_ifs at h with h1 h2
      exact ⟨h1, h2⟩
    · rintro ⟨h1, h2⟩
      unfold domain.convert
      rw [if_pos h1, if_pos h2]
      exact ⟨_, rfl⟩
  · intro d out h
    unfold domain.convert at h
    split_ifs at h with h1 h2
    simp only [Except.ok.injEq] at h
    subst h
    simp
  · intro f i hi hy hn
    unfold urlforward.convert
    rw [hi]
    simp only
    rw [if_neg (by tauto)]
  · intro f i hi hinc hy hn
    unfold urlforward.convert
    rw [hi]
    simp only
    rw [if_pos hinc, if_neg (by tauto)]
  · intro f out h
    unfold urlforward.convert at h
    cases hp : ParseInt64 f.ID with
    | error e => rw [hp] at h; exact absurd h (by simp)
    | ok i =>
      rw [hp] at h
      simp only at h
      split_ifs at h with h1 h2
      simp only [Except.ok.injEq] at h
      subst h
      simp

/-- C4 witness: the amended statements applied at concrete inputs, one per
hypothesis-bearing conjunct. -/
theorem c4_amended_boolean_conversion_witness :
    domain.convert { sampleDomainWire with SecurityLock := "true" } =
      .error "Expected security lock of '1' or '0', got 'true'." ∧
    domain.convert { sampleDomainWire with NotLocal := "x" } =
      .error "Expected whois privacy of '1' or '0', got '2'." ∧
    urlforward.convert
        { ID := "7", Subdomain := "www", Location := "https://example.com",
          type_ := "permanent", IncludePath := "maybe", Wildcard := "no" } =
      .error "Expected include path of 'yes' or 'no', got: 'maybe'." ∧
    urlforward.convert
        { ID := "7", Subdomain := "www", Location := "https://example.com",
          type_ := "permanent", IncludePath := "yes", Wildcard := "2" } =
      .error "Expected wildcard of 'yes' or 'no', got: '2'." :=
  ⟨c4_amended_boolean_conversion.1 _ (by decide) (by decide),
    c4_amended_boolean_conversion.2.1 _ (Or.inl rfl) (by decide) (by decide),
    c4_amended_boolean_conversion.2.2.2.2.1 _ 7 rfl (by decide) (by decide),
    c4_amended_boolean_conversion.2.2.2.2.2.1 _ 7 rfl (Or.inl rfl)
      (by decide) (by decide)⟩

/-- C5: in the Domain wire-to-domain converter, the securityLock output is
derived from the securityLock wire field, while the whoisPrivacy, autoRenew
and notLocal outputs are all derived from the notLocal wire field: on any
successful conversion the three outputs all equal the notLocal test, and
changing the whoisPrivacy and autoRenew wire fields to anything at all
leaves the successful result unchanged. -/
theorem c5_notlocal_sourcing (d : domain) (out : Domain)
    (h : domain.convert d = .ok out) :
    ((out.SecurityLock : Prop) ↔ d.SecurityLock = "1") ∧
    ((out.WhoisPrivacy : Prop) ↔ d.NotLocal = "1") ∧
    ((out.AutoRenew : Prop) ↔ d.NotLocal = "1") ∧
    ((out.NotLocal : Prop) ↔ d.NotLocal = "1") ∧
    (∀ w a : String,
      domain.convert { d with WhoisPrivacy := w, AutoRenew := a } =
        .ok out) := by
  unfold domain.convert at h
  split_ifs at h with h1 h2
  simp only [Except.ok.injEq] at h
  subst h
  refine ⟨by simp, by simp, by simp, by simp, ?_⟩
  intro w a
  unfold domain.convert
  rw [if_pos h1, if_pos h2]

/-- C5 witness: the sourcing on a concrete successful conversion whose
whoisPrivacy wire literal is "2" yet whose whoisPrivacy output is true, and
replacing the whoisPrivacy and autoRenew wire fields leaves the result
unchanged. -/
theorem c5_notlocal_sourcing_witness :
    (((true : Bool) : Prop) ↔ sampleDomainWire.NotLocal = "1") ∧
    domain.convert
        { sampleDomainWire with WhoisPrivacy := "77", AutoRenew := "88" } =
      .ok { DomainName := "example.com", Status := "ACTIVE", TLD := "com",
            CreateDate := "2023-01-01 00:00:00",
            ExpireDate := "2024-01-01 00:00:00",
            SecurityLock := true, WhoisPrivacy := true, AutoRenew := true,
            NotLocal := true } :=
  ⟨(c5_notlocal_sourcing sampleDomainWire _ rfl).2.1,
    (c5_notlocal_sourcing sampleDomainWire _ rfl).2.2.2.2 "77" "88"⟩

/-- C10 counterexample: a decoded URL forward whose JSON body had no id key
has an empty wire id, so its wire-to-domain conversion fails at the id
parse, not at the include-path check. -/
theorem c10_counterexample :
    urlforward.convert (urlforward.unmarshal sampleForwardJson) =
      .error ("Failed to parse id as an integer with the following error: "
        ++ "'strconv.ParseInt: parsing \"\": invalid syntax'.") ∧
    ("Failed to parse id as an integer with the following error: "
        ++ "'strconv.ParseInt: parsing \"\": invalid syntax'." : String) ≠
      "Expected include path of 'yes' or 'no', got: ''." :=
  ⟨rfl, by decide⟩

/-- C10 as amended: in the wire struct both Type and IncludePath carry the
JSON key "type", so marshalling a urlforward emits no "type" key at all
(neither a forward-type key nor an include-path key); decoding any JSON
object leaves the wire IncludePath empty (never "yes" or "no"); hence
wire-to-domain conversion of any decoded URL forward always fails: at the
include-path check whenever the decoded id string parses as an integer, and
at the id parse otherwise. -/
theorem c10_duplicate_type_tag :
    (∀ f : urlforward, ∀ p ∈ urlforward.marshalKeys f, p.1 ≠ "type") ∧
    (∀ j : List (String × String),
      (urlforward.unmarshal j).IncludePath = "") ∧
    (∀ j : List (String × String),
      ∃ e, urlforward.convert (urlforward.unmarshal j) = .error e) ∧
    (∀ j : List (String × String), ∀ i : Int,
      ParseInt64 (lookupStr j "id") = .ok i →
      urlforward.convert (urlforward.unmarshal j) =
        .error "Expected include path of 'yes' or 'no', got: ''.") := by
  have hconv : ∀ j : List (String × String), ∀ i : Int,
      ParseInt64 (lookupStr j "id") = .ok i →
      urlforward.convert (urlforward.unmarshal j) =
        .error "Expected include path of 'yes' or 'no', got: ''." := by
    intro j i hi
    unfold urlforward.convert urlforward.unmarshal
    simp only
    rw [hi]
    simp
  refine ⟨?_, fun _ => rfl, ?_, hconv⟩
  · intro f p hp
    unfold urlforward.marshalKeys at hp
    rcases List.mem_append.mp hp with h | h
    · split_ifs at h with h0
      · exact absurd h (by simp)
      · simp only [List.mem_singleton] at h
        subst h
        simp
    · simp only [List.mem_cons, List.not_mem_nil, or_false] at h
      rcases h with h | h | h
      all_goals (subst h; simp)
  · intro j
    cases hp : ParseInt64 (lookupStr j "id") with
    | error e =>
      refine ⟨"Failed to parse id as an integer with the following error: '"
        ++ e ++ "'.", ?_⟩
      unfold urlforward.convert urlforward.unmarshal
      simp only
      rw [hp]
    | ok i => exact ⟨_, hconv j i hp⟩

/-- C10 witness: the amended statements applied at concrete inputs; the
forward's id marshals under the key "id" (not "type"), and a decoded body
with a numeric id fails exactly at the include-path check. -/
theorem c10_duplicate_type_tag_witness :
    (("id", "7") : String × String).1 ≠ "type" ∧
    urlforward.convert
        (urlforward.unmarshal (("id", "7") :: sampleForwardJson)) =
      .error "Expected include path of 'yes' or 'no', got: ''." :=
  ⟨c10_duplicate_type_tag.1
      { ID := "7", Subdomain := "www", Location := "https://example.com",
        type_ := "permanent", IncludePath := "yes", Wildcard := "no" }
      ("id", "7") (by decide),
    c10_duplicate_type_tag.2.2.2 (("id", "7") :: sampleForwardJson) 7 rfl⟩

/-- Length of the conversion loop's record slice: one entry per wire
record, nil placeholders included. -/
lemma convertLoop_length {α β : Type} (conv : α → Except String β)
    (l : List α) : ((convertLoop conv l).1).length = l.length := by
  induction l with
  | nil => rfl
  | cons a as ih =>
    unfold convertLoop
    cases h : conv a <;> simp [h, ih]

/-- The non-nil entries of the conversion loop's record slice are exactly
the successful conversions, in order. -/
lemma convertLoop_successes {α β : Type} (conv : α → Except String β)
    (l : List α) :
    ((convertLoop conv l).1).filterMap id =
      l.filterMap (fun a => exceptOk (conv a)) := by
  induction l with
  | nil => rfl
  | cons a as ih =>
    unfold convertLoop
    cases h : conv a <;> simp [h, ih, exceptOk]

/-- The conversion loop's error slice collects exactly the per-record
conversion errors, in order. -/
lemma convertLoop_errors {α β : Type} (conv : α → Except String β)
    (l : List α) :
    (convertLoop conv l).2 = l.filterMap (fun a => exceptErr (conv a)) := by
  induction l with
  | nil => rfl
  | cons a as ih =>
    unfold convertLoop
    cases h : conv a <;> simp [h, ih, exceptErr]

/-- C8: for every listing-style call (domain list, DNS records, URL
forwards), a transport or status failure aborts the whole call immediately
with no records and that single error; otherwise per-record conversion
failures do not abort the batch: every wire record contributes one slot,
the successfully converted records are all returned (in order), and the
per-record conversion errors are all collected (in order). -/
theorem c8_partial_batch :
    (∀ e : DoError,
      Client.DomainList (.error e) = ([], [DoError.render e]) ∧
      Client.DNSRecords (.error e) = ([], [DoError.render e]) ∧
      Client.URLForwards (.error e) = ([], [DoError.render e])) ∧
    (∀ ds : List domain,
      ((Client.DomainList (.ok ds)).1).length = ds.length ∧
      ((Client.DomainList (.ok ds)).1).filterMap id =
        ds.filterMap (fun d => exceptOk (domain.convert d)) ∧
      (Client.DomainList (.ok ds)).2 =
        ds.filterMap (fun d => exceptErr (domain.convert d))) ∧
    (∀ rs : List dnsrecord,
      ((Client.DNSRecords (.ok rs)).1).length = rs.length ∧
      ((Client.DNSRecords (.ok rs)).1).filterMap id =
        rs.filterMap (fun r => exceptOk (dnsrecord.convert r)) ∧
      (Client.DNSRecords (.ok rs)).2 =
        rs.filterMap (fun r => exceptErr (dnsrecord.convert r))) ∧
    (∀ fs : List urlforward,
      ((Client.URLForwards (.ok fs)).1).length = fs.length ∧
      ((Client.URLForwards (.ok fs)).1).filterMap id =
        fs.filterMap (fun f => exceptOk (urlforward.convert f)) ∧
      (Client.URLForwards (.ok fs)).2 =
        fs.filterMap (fun f => exceptErr (urlforward.convert f))) := by
  refine ⟨fun e => ⟨rfl, rfl, rfl⟩, fun ds => ?_, fun rs => ?_, fun fs => ?_⟩
  · exact ⟨convertLoop_length _ ds, convertLoop_successes _ ds,
      convertLoop_errors _ ds⟩
  · exact ⟨convertLoop_length _ rs, convertLoop_successes _ rs,
      convertLoop_errors _ rs⟩
  · exact ⟨convertLoop_length _ fs, convertLoop_successes _ fs,
      convertLoop_errors _ fs⟩

/-- Pagination helper: against a mocked client that serves page `i` (with
no errors) at offset `start + 1000 * i`, where every non-last page has
exactly 1000 records and the last page is short, the read loop with fuel
equal to the number of pages issues one call per page at offsets advancing
by 1000 from `start`, stops after the short page, and returns the
concatenation of the pages' records with no diagnostics. -/
lemma readLoop_pages (fetch : Nat → List (Option Domain) × List String) :
    ∀ (ps : List (List Domain)) (start : Nat), ps ≠ [] →
    (∀ i, i + 1 < ps.length → (ps.getD i []).length = 1000) →
    (∀ lastp, ps.getLast? = some lastp → lastp.length < 1000) →
    (∀ i, i < ps.length →
      fetch (start + 1000 * i) = ((ps.getD i []).map some, [])) →
    DomainListDataSource.ReadLoop fetch ps.length start =
      some ((ps.flatten).map toDomainModel,
        (List.range ps.length).map (fun i => start + 1000 * i), []) := by
  intro ps
  induction ps with
  | nil => exact fun start h => absurd rfl h
  | cons p ps ih =>
    intro start _ hfull hshort hfetch
    have hp0 : fetch start = (p.map some, []) := by
      have h := hfetch 0 (by simp)
      simpa using h
    cases ps with
    | nil =>
      have hlast : p.length < 1000 := hshort p (by simp)
      show DomainListDataSource.ReadLoop fetch (0 + 1) start = _
      unfold DomainListDataSource.ReadLoop
      rw [hp0]
      simp [hlast, List.filterMap_map, Function.comp_def, List.range_succ]
    | cons q qs =>
      have hlen : p.length = 1000 := by
        have h := hfull 0 (by simp)
        simpa using h
      have ihh := ih (start + 1000) (by simp)
        (fun i hi => by
          have h := hfull (i + 1) (by simpa using Nat.succ_lt_succ hi)
          simpa using h)
        (fun lastp hl => hshort lastp (by
          rw [List.getLast?_cons_cons]
          exact hl))
        (fun i hi => by
          have h := hfetch (i + 1) (by simpa using Nat.succ_lt_succ hi)
          rw [show start + 1000 * (i + 1) = start + 1000 + 1000 * i by ring]
            at h
          simpa using h)
      show DomainListDataSource.ReadLoop fetch ((q :: qs).length + 1) start = _
      unfold DomainListDataSource.ReadLoop
      rw [hp0]
      simp only [List.length_map, hlen, List.filterMap_map, if_true]
      rw [if_neg (by omega), ihh]
      have h1 : List.filterMap (id ∘ some) p = p := by
        simp [Function.comp_def]
      rw [h1]
      have h2 : (List.range (p :: q :: qs).length).map
            (fun i => start + 1000 * i) =
          start :: (List.range (q :: qs).length).map
            (fun i => start + 1000 + 1000 * i) := by
        rw [show (p :: q :: qs).length = (q :: qs).length + 1 from rfl,
          List.range_succ_eq_map, List.map_cons, List.map_map]
        refine congrArg₂ _ (by simp) ?_
        exact List.map_congr_left (fun a _ => by
          simp only [Function.comp_apply, Nat.succ_eq_add_one]
          ring)
      rw [h2]
      simp

/-- C7: for every sequence of domain-list pages in which only the last page
has fewer than 1000 records, the domain-listing operation (`Read`'s loop
over `Client.DomainList`) issues exactly one call per page with offsets
advancing by 1000 starting at 0, stops after the first short page, and
returns the concatenation of all pages' records in order (as provider
models), with no diagnostics. -/
theorem c7_pagination (ps : List (List Domain))
    (fetch : Nat → List (Option Domain) × List String)
    (hne : ps ≠ [])
    (hfull : ∀ i, i + 1 < ps.length → (ps.getD i []).length = 1000)
    (hshort : ∀ lastp, ps.getLast? = some lastp → lastp.length < 1000)
    (hfetch : ∀ i, i < ps.length →
      fetch (1000 * i) = ((ps.getD i []).map some, [])) :
    DomainListDataSource.ReadLoop fetch ps.length 0 =
      some ((ps.flatten).map toDomainModel,
        (List.range ps.length).map (fun i => 1000 * i), []) := by
  have h := readLoop_pages fetch ps 0 hne hfull hshort
    (fun i hi => by simpa using hfetch i hi)
  simpa using h

/-- C7 witness: the pagination behaviour on the mocked page sequence of
sizes 1000, 1000, 400: three calls at offsets 0, 1000, 2000 and the
concatenated records. -/
theorem c7_pagination_witness :
    DomainListDataSource.ReadLoop sampleFetch samplePages.length 0 =
      some ((samplePages.flatten).map toDomainModel,
        (List.range samplePages.length).map (fun i => 1000 * i), []) :=
  c7_pagination samplePages sampleFetch (List.cons_ne_nil _ _)
    (by
      intro i hi
      simp only [samplePages, List.length_cons, List.length_nil] at hi
      rcases (by omega : i = 0 ∨ i = 1) with rfl | rfl <;>
        simp only [samplePages, List.getD_cons_zero, List.getD_cons_succ,
          List.length_replicate])
    (by
      intro lastp hl
      simp only [samplePages, List.getLast?_cons_cons,
        List.getLast?_singleton, Option.some.injEq] at hl
      subst hl
      simp only [List.length_replicate]
      norm_num)
    (by
      intro i hi
      simp only [samplePages, List.length_cons, List.length_nil] at hi
      rcases (by omega : i = 0 ∨ i = 1 ∨ i = 2) with rfl | rfl | rfl <;>
        norm_num [sampleFetch])

end Porkbun
